import Mathlib

/-!
Verification development for the football betting bot (worker/bot.py).

The embedding models the bet lifecycle state machine and its tracking
store: the LocalFileManager tables, the per-snapshot evaluator
process_live_match with its helpers place_regular_bet and
check_ht_result, and the stale-bet reconciler
check_and_resolve_stale_bets.

Modelling conventions (each definition carries the source location):
- Python dicts keyed by str(match_id) become association lists keyed by
  Nat (str is injective on the integer ids used as keys).  dict_set
  replaces the binding for a key, dict_pop removes it, matching dict
  assignment and dict.pop; entry order inside the list is not
  semantically relevant to any property proved here.
- Timestamps (datetime.utcnow / strftime strings) are modelled as Nat
  seconds; the store only ever writes well-formed timestamps, so the
  strptime ValueError branches are unreachable in the typed model.
- Telegram delivery is an oracle deliver : Notification -> Bool; the
  retry loop inside send_telegram is collapsed into the oracle result.
  Message formatting is abstracted into the Notification constructors,
  which carry exactly the data interpolated into the source message
  strings.
- The Sofascore client is an oracle fetch : Nat -> Option MatchSnapshot
  standing for robust_get_finished_match_details (its internal retries,
  backoff and client restart are time/IO and collapse into the final
  result of one reconciler attempt).
- Every state mutation and external effect is additionally recorded in an
  event trace (BotState.trace) so that ordering properties can be
  stated; no function reads the trace.
-/

namespace Bot

/-! ### Constants (bot.py lines 37-60) -/

def SLEEP_TIME : Nat := 75

def FIXTURE_API_INTERVAL : Nat := 900

def MINUTES_REGULAR_BET : List Int := [36, 37]

def BET_TYPE_REGULAR : String := "regular"

def STATUS_LIVE : List String := ["LIVE", "1H", "2H", "ET", "P"]

def STATUS_HALFTIME : String := "HT"

def STATUS_FINISHED : List String := ["FT", "AET", "PEN"]

def MAX_FETCH_RETRIES : Nat := 3

def BET_RESOLUTION_WAIT_MINUTES : Nat := 180

/-! ### Dictionary operations (Python dict semantics on Nat keys) -/

/-- Lookup of the binding of key k (dict.get / the `in` operator). -/
def dict_get {α : Type} (k : Nat) : List (Nat × α) → Option α
  | [] => none
  | p :: rest => if p.1 = k then some p.2 else dict_get k rest

/-- dict.pop(k, None): removes the binding for k if present. -/
def dict_pop {α : Type} (k : Nat) : List (Nat × α) → List (Nat × α)
  | [] => []
  | p :: rest => if p.1 = k then dict_pop k rest else p :: dict_pop k rest

/-- dict assignment d[k] = v: the new binding shadows and removes any
old binding for k. -/
def dict_set {α : Type} (k : Nat) (v : α) (l : List (Nat × α)) : List (Nat × α) :=
  (k, v) :: dict_pop k l

/-! ### Data model -/

/-- One Tracking Record of the active-match table (the per-fixture state
dict created in process_live_match, bot.py lines 498-510): JSON keys
"36_bet_placed" and "36_score". -/
structure TrackedState where
  bet_placed_36 : Bool
  score_36 : Option String
deriving DecidableEq

/-- The default Tracking Record used when a fixture is first seen
(bot.py lines 498-510). -/
def initial_tracked_state : TrackedState :=
  { bet_placed_36 := false, score_36 := none }

/-- An Unresolved Bet Record (the dict built in place_regular_bet,
bot.py lines 365-375). -/
structure UnresolvedBet where
  match_name : String
  placed_at : Nat
  league : String
  country : String
  league_id : Nat
  bet_type : String
  score_36 : String
  fixture_id : Nat
  sofascored_id : Nat
deriving DecidableEq

/-- A Resolved Bet Record: the former unresolved record spread together
with outcome and the two resolution timestamps (move_to_resolved,
bot.py lines 146-158). -/
structure ResolvedBet where
  bet : UnresolvedBet
  outcome : String
  resolved_at : Nat
  resolution_timestamp : Nat
deriving DecidableEq

/-- An outbound Telegram notification, abstracted to the data
interpolated into the message text. -/
inductive Notification where
  | placement (match_name country league score : String)
  | htResult (match_name country league ht_score bet_score outcome : String)
  | staleMessage (text : String)
deriving DecidableEq

/-- Events recorded in the trace: store mutations, notification
attempts, external final-result fetches, and the config update. -/
inductive Ev where
  | updateTracked (id : Nat) (st : TrackedState)
  | addUnresolved (id : Nat) (bet : UnresolvedBet)
  | moveResolved (id : Nat) (bet : UnresolvedBet) (outcome : String)
  | deleteTracked (id : Nat)
  | notifyAttempt (note : Notification)
  | fetchFinal (id : Nat)
  | setLastCall (t : Nat)
deriving DecidableEq

/-- The full durable state owned by the LocalFileManager: the four
tables (tracked_matches.json, unresolved_bets.json, resolved_bets.json,
config.json - the latter holding only last_resolution_api_call), plus
the instrumentation trace.  The source keeps _unresolved_bets_cache as
an alias of _unresolved_bets (bot.py line 80), so a single table models
both. -/
structure BotState where
  tracked_matches : List (Nat × TrackedState)
  unresolved_bets : List (Nat × UnresolvedBet)
  resolved_bets : List (Nat × ResolvedBet)
  last_resolution_api_call : Option Nat
  trace : List Ev
deriving DecidableEq

/-- One live-match snapshot as consumed by process_live_match: the
fields of the Sofascore event object that the evaluator reads.  Scores
are Option Nat because .current may be absent (the stale path guards
with `or 0`). -/
structure MatchSnapshot where
  id : Nat
  home_team_name : String
  away_team_name : String
  total_elapsed_minutes : Option Int
  status_description : String
  home_score_current : Option Nat
  away_score_current : Option Nat
  tournament_name : String
  tournament_category_name : String
  tournament_id : Nat
deriving DecidableEq

/-- The match_info dict built in process_live_match (lines 512-517). -/
structure MatchInfo where
  match_name : String
  league_name : String
  country : String
  league_id : Nat
deriving DecidableEq

/-! ### String and score helpers -/

/-- Python str.upper(), modelled as the character-wise ASCII upcasing
map on the underlying character list (String.toUpper computes the same
result but is defined by well-founded recursion, which blocks kernel
evaluation). -/
def py_upper (s : String) : String :=
  ⟨s.data.map Char.toUpper⟩

/-- Substring test, modelling the Python `in` operator on strings. -/
def str_contains_sub (hay pat : String) : Bool :=
  hay.data.tails.any (fun t => pat.data.isPrefixOf t)

/-- Python str() of an optional goal count inside an f-string: None
renders as "None". -/
def pyStr : Option Nat → String
  | some n => toString n
  | none => "None"

/-- score = f-string of home and away current goals
(process_live_match, bot.py lines 491-493). -/
def match_score (m : MatchSnapshot) : String :=
  pyStr m.home_score_current ++ "-" ++ pyStr m.away_score_current

/-- Canonical status derivation (process_live_match, bot.py lines
482-489): uppercase the free-text description, then substring-match in
source order; otherwise pass a known live code through; otherwise
"N/A". -/
def canonical_status (status_description : String) : String :=
  let sd := py_upper status_description
  if str_contains_sub sd "1ST HALF" then "1H"
  else if str_contains_sub sd "2ND HALF" then "2H"
  else if str_contains_sub sd "HALFTIME" then STATUS_HALFTIME
  else if str_contains_sub sd "FINISHED" || str_contains_sub sd "ENDED"
      || str_contains_sub sd "CANCELLED" then "FT"
  else if sd ∈ STATUS_LIVE then sd
  else "N/A"

/-- The match_info dict of process_live_match (lines 512-517); the
tournament attributes are modelled as always present, matching the
Sofascore event type. -/
def match_info_of (m : MatchSnapshot) : MatchInfo :=
  { match_name := m.home_team_name ++ " vs " ++ m.away_team_name,
    league_name := m.tournament_name,
    country := m.tournament_category_name,
    league_id := m.tournament_id }

/-! ### LocalFileManager operations (bot.py lines 72-189) -/

/-- is_bet_unresolved (lines 111-114): direct dictionary lookup in the
unresolved table. -/
def is_bet_unresolved (s : BotState) (match_id : Nat) : Bool :=
  (dict_get match_id s.unresolved_bets).isSome

/-- get_unresolved_bet_data (lines 116-119). -/
def get_unresolved_bet_data (s : BotState) (match_id : Nat) : Option UnresolvedBet :=
  dict_get match_id s.unresolved_bets

/-- get_stale_unresolved_bets (lines 121-137): unresolved bets whose
bet_type is NOT in [BET_TYPE_REGULAR] and whose placed_at lies before
now minus the wait (in seconds: placed_at + wait*60 < now). -/
def get_stale_unresolved_bets (s : BotState) (now : Nat) (minutes_to_wait : Nat) :
    List (Nat × UnresolvedBet) :=
  s.unresolved_bets.filter (fun p =>
    !(decide (p.2.bet_type ∈ [BET_TYPE_REGULAR]))
      && decide (p.2.placed_at + minutes_to_wait * 60 < now))

/-- add_unresolved_bet (lines 139-144): stamps placed_at with the
current time, then stores the record (overwriting any old binding). -/
def add_unresolved_bet (s : BotState) (now : Nat) (match_id : Nat) (data : UnresolvedBet) :
    BotState :=
  let data := { data with placed_at := now }
  { s with unresolved_bets := dict_set match_id data s.unresolved_bets,
           trace := s.trace ++ [Ev.addUnresolved match_id data] }

/-- move_to_resolved (lines 146-158): spread bet_info plus outcome and
the two resolution timestamps into the resolved table, pop the
unresolved binding, persist. -/
def move_to_resolved (s : BotState) (now : Nat) (match_id : Nat)
    (bet_info : UnresolvedBet) (outcome : String) : BotState :=
  let resolved_data : ResolvedBet :=
    { bet := bet_info, outcome := outcome, resolved_at := now, resolution_timestamp := now }
  { s with resolved_bets := dict_set match_id resolved_data s.resolved_bets,
           unresolved_bets := dict_pop match_id s.unresolved_bets,
           trace := s.trace ++ [Ev.moveResolved match_id bet_info outcome] }

/-- get_tracked_match (lines 161-163). -/
def get_tracked_match (s : BotState) (match_id : Nat) : Option TrackedState :=
  dict_get match_id s.tracked_matches

/-- update_tracked_match (lines 165-171): the callers always pass a
full record, so the dict merge amounts to replacing the binding. -/
def update_tracked_match (s : BotState) (match_id : Nat) (data : TrackedState) : BotState :=
  { s with tracked_matches := dict_set match_id data s.tracked_matches,
           trace := s.trace ++ [Ev.updateTracked match_id data] }

/-- delete_tracked_match (lines 173-176). -/
def delete_tracked_match (s : BotState) (match_id : Nat) : BotState :=
  { s with tracked_matches := dict_pop match_id s.tracked_matches,
           trace := s.trace ++ [Ev.deleteTracked match_id] }

/-- get_last_api_call (lines 179-181). -/
def get_last_api_call (s : BotState) : Option Nat :=
  s.last_resolution_api_call

/-- update_last_api_call (lines 183-189). -/
def update_last_api_call (s : BotState) (now : Nat) : BotState :=
  { s with last_resolution_api_call := some now,
           trace := s.trace ++ [Ev.setLastCall now] }

/-- send_telegram (lines 217-239): records the attempt and returns the
delivery result from the oracle (the internal 3-attempt retry loop is
collapsed into the oracle). -/
def send_telegram (deliver : Notification → Bool) (s : BotState) (note : Notification) :
    BotState × Bool :=
  ({ s with trace := s.trace ++ [Ev.notifyAttempt note] }, deliver note)

/-! ### Startup loading (bot.py lines 74-92) -/

/-- The observable condition of one durable file at startup: absent,
present but unreadable (json.JSONDecodeError / IOError), or parsed. -/
inductive FileState (α : Type) where
  | missing
  | corrupt
  | parsed (data : α)
deriving DecidableEq

/-- _load_data (lines 83-92): a missing file and an unreadable file
both yield the empty table (the except branch logs and returns {}). -/
def load_data {α : Type} (empty : α) : FileState α → α
  | FileState.missing => empty
  | FileState.corrupt => empty
  | FileState.parsed d => d

/-- LocalFileManager.__init__ (lines 74-81): loads the four tables; it
is a total function, so construction never fails. -/
def init_local_file_manager
    (tracked_file : FileState (List (Nat × TrackedState)))
    (unresolved_file : FileState (List (Nat × UnresolvedBet)))
    (resolved_file : FileState (List (Nat × ResolvedBet)))
    (config_file : FileState (Option Nat)) : BotState :=
  { tracked_matches := load_data [] tracked_file,
    unresolved_bets := load_data [] unresolved_file,
    resolved_bets := load_data [] resolved_file,
    last_resolution_api_call := load_data none config_file,
    trace := [] }

/-! ### Bet evaluator (bot.py lines 351-436 and 475-536) -/

/-- place_regular_bet (lines 351-387).  Pre-check: if an unresolved bet
already exists, skip placement (only raising the 36_bet_placed flag if
it was down).  Otherwise place on a qualifying score, else just raise
the flag. -/
def place_regular_bet (deliver : Notification → Bool) (now : Nat) (s : BotState)
    (state : TrackedState) (fixture_id : Nat) (score : String)
    (match_info : MatchInfo) : BotState :=
  if is_bet_unresolved s fixture_id = true then
    if state.bet_placed_36 = false then
      update_tracked_match s fixture_id { state with bet_placed_36 := true }
    else s
  else if score ∈ ["1-1", "2-2", "3-3"] then
    let state := { state with bet_placed_36 := true, score_36 := some score }
    let s := update_tracked_match s fixture_id state
    let unresolved_data : UnresolvedBet :=
      { match_name := match_info.match_name,
        placed_at := now,
        league := match_info.league_name,
        country := match_info.country,
        league_id := match_info.league_id,
        bet_type := BET_TYPE_REGULAR,
        score_36 := score,
        fixture_id := fixture_id,
        sofascored_id := fixture_id }
    let s := add_unresolved_bet s now fixture_id unresolved_data
    (send_telegram deliver s
      (Notification.placement match_info.match_name match_info.country
        match_info.league_name score)).1
  else
    update_tracked_match s fixture_id { state with bet_placed_36 := true }

/-- check_ht_result (lines 390-436).  For a regular bet the outcome is
win exactly on string equality of the halftime score with the placed
score; the bet is moved to resolved and the result notified.  For any
other bet_type outcome stays None, so nothing is moved or notified
(the 32_over branch is commented out in the source).  Finally, if no
unresolved bet remains, the tracked match is deleted. -/
def check_ht_result (deliver : Notification → Bool) (now : Nat) (s : BotState)
    (fixture_id : Nat) (score : String) (match_info : MatchInfo) : BotState :=
  let current_score := score
  let s1 :=
    match get_unresolved_bet_data s fixture_id with
    | some unresolved_bet_data =>
      if unresolved_bet_data.bet_type = BET_TYPE_REGULAR then
        let bet_score := unresolved_bet_data.score_36
        let outcome := if current_score = bet_score then "win" else "loss"
        let s2 := move_to_resolved s now fixture_id unresolved_bet_data outcome
        (send_telegram deliver s2
          (Notification.htResult match_info.match_name unresolved_bet_data.country
            unresolved_bet_data.league current_score bet_score outcome)).1
      else s
    | none => s
  if is_bet_unresolved s1 fixture_id = false then delete_tracked_match s1 fixture_id
  else s1

/-- process_live_match (lines 475-536).  Derives the canonical status
and score, applies the two early-return guards, then the placement,
halftime-resolution and finished-cleanup rules in source order.  The
repeated status.upper() calls of the source are identities because
every canonical status value is already uppercase, so they are
omitted. -/
def process_live_match (deliver : Notification → Bool) (now : Nat) (s : BotState)
    (m : MatchSnapshot) : BotState :=
  let fixture_id := m.id
  let minute := m.total_elapsed_minutes
  let status := canonical_status m.status_description
  let score := match_score m
  if status ∉ STATUS_LIVE ∧ status ≠ STATUS_HALFTIME then s
  else if minute = none ∧ status ∉ [STATUS_HALFTIME] then s
  else
    let state := (get_tracked_match s fixture_id).getD initial_tracked_state
    let match_info := match_info_of m
    let s1 :=
      -- the disjunction spells out `minute in MINUTES_REGULAR_BET` ([36, 37])
      if status = "1H" ∧ (minute = some 36 ∨ minute = some 37)
          ∧ state.bet_placed_36 = false then
        place_regular_bet deliver now s state fixture_id score match_info
      else if status = STATUS_HALFTIME ∧ is_bet_unresolved s fixture_id = true then
        check_ht_result deliver now s fixture_id score match_info
      else s
    if status ∈ STATUS_FINISHED ∧ is_bet_unresolved s1 fixture_id = false then
      delete_tracked_match s1 fixture_id
    else s1

/-! ### Stale bet reconciler (bot.py lines 539-636) -/

/-- The per-bet body of the loop in check_and_resolve_stale_bets (lines
564-633), threading (state, successful_api_call).  One fetchFinal event
stands for one robust_get_finished_match_details invocation.  Every
branch that would assign outcome belongs to the removed 80_minute and
32_over bet types and is commented out in the source, so outcome
remains None and the delivery-gated resolution block (lines 626-630) is
never entered. -/
def resolve_stale_bet (deliver : Notification → Bool)
    (fetch : Nat → Option MatchSnapshot) (now : Nat)
    (acc : BotState × Bool) (entry : Nat × UnresolvedBet) : BotState × Bool :=
  let s := acc.1
  let successful_api_call := acc.2
  let match_id := entry.1
  let bet_info := entry.2
  let sofascored_id := bet_info.sofascored_id
  let s := { s with trace := s.trace ++ [Ev.fetchFinal sofascored_id] }
  match fetch sofascored_id with
  | none => (s, successful_api_call)
  | some match_data =>
    let status_description := py_upper match_data.status_description
    if str_contains_sub status_description "FINISHED"
        || str_contains_sub status_description "ENDED" then
      let outcome : Option String := none
      let message := ""
      match outcome with
      | some oc =>
        if oc ≠ "error" then
          let sd := send_telegram deliver s (Notification.staleMessage message)
          let s3 :=
            if sd.2 = true then
              delete_tracked_match (move_to_resolved sd.1 now match_id bet_info oc) match_id
            else sd.1
          (s3, true)
        else (s, true)
      | none => (s, true)
    else (s, true)

/-- check_and_resolve_stale_bets (lines 539-636): collect stale bets,
apply the rate gate against the last reconciliation call (a never-set
timestamp counts as FIXTURE_API_INTERVAL + 1 seconds), then process
each stale bet, and record the call time if any fetch succeeded. -/
def check_and_resolve_stale_bets (deliver : Notification → Bool)
    (fetch : Nat → Option MatchSnapshot) (now : Nat) (s : BotState) : BotState :=
  let stale_bets := get_stale_unresolved_bets s now BET_RESOLUTION_WAIT_MINUTES
  if stale_bets = [] then s
  else
    let time_since_last_call : Int :=
      match get_last_api_call s with
      | some t => (now : Int) - (t : Int)
      | none => (FIXTURE_API_INTERVAL : Int) + 1
    if time_since_last_call < (FIXTURE_API_INTERVAL : Int) then s
    else
      let r := stale_bets.foldl (resolve_stale_bet deliver fetch now) (s, false)
      if r.2 = true then update_last_api_call r.1 now else r.1

/-! ### Trace observers -/

/-- Is the event a notification attempt. -/
def is_notify_ev : Ev → Bool
  | Ev.notifyAttempt _ => true
  | _ => false

/-- Is the event one of the store mutations that constitute a bet-state
transition (placement or resolution). -/
def is_transition_mut : Ev → Bool
  | Ev.updateTracked _ _ => true
  | Ev.addUnresolved _ _ => true
  | Ev.moveResolved _ _ _ => true
  | _ => false

/-- Is the event any mutation of the four tables. -/
def is_store_mut_ev : Ev → Bool
  | Ev.updateTracked _ _ => true
  | Ev.addUnresolved _ _ => true
  | Ev.moveResolved _ _ _ => true
  | Ev.deleteTracked _ => true
  | _ => false

/-- Is the event an external final-details fetch. -/
def is_fetch_ev : Ev → Bool
  | Ev.fetchFinal _ => true
  | _ => false

/-- True when some notification attempt is followed, later in the
trace, by a transition mutation - the ordering the propagation policy
forbids. -/
def notify_then_mut : List Ev → Bool
  | [] => false
  | e :: rest => (is_notify_ev e && rest.any is_transition_mut) || notify_then_mut rest

/-! ### Concrete fixtures used to instantiate the theorems -/

/-- A freshly started store: all four tables empty. -/
def empty_state : BotState :=
  { tracked_matches := [], unresolved_bets := [], resolved_bets := [],
    last_resolution_api_call := none, trace := [] }

/-- A regular 36-minute bet on fixture 1 targeting score 2-2. -/
def demo_bet : UnresolvedBet :=
  { match_name := "H vs A", placed_at := 10, league := "L", country := "C",
    league_id := 5, bet_type := BET_TYPE_REGULAR, score_36 := "2-2",
    fixture_id := 1, sofascored_id := 1 }

/-- A store tracking fixture 1 with the regular bet of demo_bet open. -/
def demo_state : BotState :=
  { tracked_matches := [(1, { bet_placed_36 := true, score_36 := some "2-2" })],
    unresolved_bets := [(1, demo_bet)], resolved_bets := [],
    last_resolution_api_call := none, trace := [] }

/-- Halftime snapshot of fixture 1 at score 2-2. -/
def ht_snap_win : MatchSnapshot :=
  { id := 1, home_team_name := "H", away_team_name := "A",
    total_elapsed_minutes := some 46, status_description := "Halftime",
    home_score_current := some 2, away_score_current := some 2,
    tournament_name := "L", tournament_category_name := "C", tournament_id := 5 }

/-- Halftime snapshot of fixture 1 at score 2-1. -/
def ht_snap_loss : MatchSnapshot :=
  { id := 1, home_team_name := "H", away_team_name := "A",
    total_elapsed_minutes := some 46, status_description := "Halftime",
    home_score_current := some 2, away_score_current := some 1,
    tournament_name := "L", tournament_category_name := "C", tournament_id := 5 }

/-- Halftime snapshot of fixture 1 with the elapsed minute absent. -/
def ht_snap_nomin : MatchSnapshot :=
  { id := 1, home_team_name := "H", away_team_name := "A",
    total_elapsed_minutes := none, status_description := "Halftime",
    home_score_current := some 2, away_score_current := some 2,
    tournament_name := "L", tournament_category_name := "C", tournament_id := 5 }

/-- First-half snapshot of fixture 100 at minute 36 with qualifying score 2-2. -/
def snap_1H_q : MatchSnapshot :=
  { id := 100, home_team_name := "H", away_team_name := "A",
    total_elapsed_minutes := some 36, status_description := "1st half",
    home_score_current := some 2, away_score_current := some 2,
    tournament_name := "L", tournament_category_name := "C", tournament_id := 5 }

/-- First-half snapshot of fixture 100 at minute 36 with non-qualifying score 1-0. -/
def snap_1H_nq : MatchSnapshot :=
  { id := 100, home_team_name := "H", away_team_name := "A",
    total_elapsed_minutes := some 36, status_description := "1st half",
    home_score_current := some 1, away_score_current := some 0,
    tournament_name := "L", tournament_category_name := "C", tournament_id := 5 }

/-- Second-half snapshot of fixture 9 with the elapsed minute absent. -/
def snap_live_nomin : MatchSnapshot :=
  { id := 9, home_team_name := "H", away_team_name := "A",
    total_elapsed_minutes := none, status_description := "2nd half",
    home_score_current := some 0, away_score_current := some 0,
    tournament_name := "L", tournament_category_name := "C", tournament_id := 5 }

/-- A regular bet on fixture 200 placed at time 0 (so arbitrarily old). -/
def stale_regular_bet : UnresolvedBet :=
  { match_name := "H vs A", placed_at := 0, league := "L", country := "C",
    league_id := 5, bet_type := BET_TYPE_REGULAR, score_36 := "1-1",
    fixture_id := 200, sofascored_id := 200 }

/-- Store for fixture 200: regular bet unresolved, halftime never seen. -/
def stale_regular_state : BotState :=
  { tracked_matches := [(200, { bet_placed_36 := true, score_36 := some "1-1" })],
    unresolved_bets := [(200, stale_regular_bet)], resolved_bets := [],
    last_resolution_api_call := none, trace := [] }

/-- Full-time snapshot of fixture 200. -/
def ft_snap_200 : MatchSnapshot :=
  { id := 200, home_team_name := "H", away_team_name := "A",
    total_elapsed_minutes := some 90, status_description := "Match finished",
    home_score_current := some 1, away_score_current := some 1,
    tournament_name := "L", tournament_category_name := "C", tournament_id := 5 }

/-- Store for fixture 7: tracked with no bet open (bet_status none). -/
def ft_clean_state : BotState :=
  { tracked_matches := [(7, { bet_placed_36 := true, score_36 := none })],
    unresolved_bets := [], resolved_bets := [],
    last_resolution_api_call := none, trace := [] }

/-- Full-time snapshot of fixture 7. -/
def ft_snap_7 : MatchSnapshot :=
  { id := 7, home_team_name := "H", away_team_name := "A",
    total_elapsed_minutes := some 90, status_description := "Match finished",
    home_score_current := some 2, away_score_current := some 0,
    tournament_name := "L", tournament_category_name := "C", tournament_id := 5 }

/-- A non-regular stale bet (of one of the removed bet types) on fixture 300. -/
def stale_other_bet : UnresolvedBet :=
  { match_name := "H vs A", placed_at := 0, league := "L", country := "C",
    league_id := 5, bet_type := "80_minute", score_36 := "2-0",
    fixture_id := 300, sofascored_id := 300 }

/-- Store with a stale non-regular bet and a recent reconciliation call. -/
def gate_recent_state : BotState :=
  { tracked_matches := [], unresolved_bets := [(300, stale_other_bet)],
    resolved_bets := [], last_resolution_api_call := some 99500, trace := [] }

/-- Store with a stale non-regular bet and no reconciliation call on record. -/
def gate_unset_state : BotState :=
  { tracked_matches := [], unresolved_bets := [(300, stale_other_bet)],
    resolved_bets := [], last_resolution_api_call := none, trace := [] }

/-! ## Lemmas about the dictionary operations -/

theorem dict_get_pop_ne {α : Type} {k k' : Nat} (h : k ≠ k') (l : List (Nat × α)) :
    dict_get k (dict_pop k' l) = dict_get k l := by
  induction l with
  | nil => rfl
  | cons p rest ih =>
    by_cases hp : p.1 = k'
    · have hpk : p.1 ≠ k := by rw [hp]; exact Ne.symm h
      simp only [dict_pop, if_pos hp, dict_get, if_neg hpk]
      exact ih
    · simp only [dict_pop, if_neg hp, dict_get]
      by_cases hk : p.1 = k
      · rw [if_pos hk, if_pos hk]
      · rw [if_neg hk, if_neg hk]; exact ih

theorem dict_get_pop_self {α : Type} (k : Nat) (l : List (Nat × α)) :
    dict_get k (dict_pop k l) = none := by
  induction l with
  | nil => rfl
  | cons p rest ih =>
    by_cases hp : p.1 = k
    · simp only [dict_pop, if_pos hp]; exact ih
    · simp only [dict_pop, if_neg hp, dict_get, if_neg hp]; exact ih

theorem dict_get_set_self {α : Type} (k : Nat) (v : α) (l : List (Nat × α)) :
    dict_get k (dict_set k v l) = some v := by
  simp [dict_set, dict_get]

theorem dict_get_set_ne {α : Type} {k k' : Nat} (h : k ≠ k') (v : α) (l : List (Nat × α)) :
    dict_get k (dict_set k' v l) = dict_get k l := by
  simp only [dict_set, dict_get, if_neg (Ne.symm h)]
  exact dict_get_pop_ne h l

/-! ## Projection lemmas for the store operations -/

@[simp] theorem update_tracked_match_tracked (s : BotState) (id : Nat) (st : TrackedState) :
    (update_tracked_match s id st).tracked_matches = dict_set id st s.tracked_matches := rfl

@[simp] theorem update_tracked_match_unresolved (s : BotState) (id : Nat) (st : TrackedState) :
    (update_tracked_match s id st).unresolved_bets = s.unresolved_bets := rfl

@[simp] theorem update_tracked_match_resolved (s : BotState) (id : Nat) (st : TrackedState) :
    (update_tracked_match s id st).resolved_bets = s.resolved_bets := rfl

@[simp] theorem update_tracked_match_last_call (s : BotState) (id : Nat) (st : TrackedState) :
    (update_tracked_match s id st).last_resolution_api_call = s.last_resolution_api_call := rfl

@[simp] theorem update_tracked_match_trace (s : BotState) (id : Nat) (st : TrackedState) :
    (update_tracked_match s id st).trace = s.trace ++ [Ev.updateTracked id st] := rfl

@[simp] theorem add_unresolved_bet_tracked (s : BotState) (now id : Nat) (d : UnresolvedBet) :
    (add_unresolved_bet s now id d).tracked_matches = s.tracked_matches := rfl

@[simp] theorem add_unresolved_bet_unresolved (s : BotState) (now id : Nat) (d : UnresolvedBet) :
    (add_unresolved_bet s now id d).unresolved_bets =
      dict_set id { d with placed_at := now } s.unresolved_bets := rfl

@[simp] theorem add_unresolved_bet_resolved (s : BotState) (now id : Nat) (d : UnresolvedBet) :
    (add_unresolved_bet s now id d).resolved_bets = s.resolved_bets := rfl

@[simp] theorem add_unresolved_bet_last_call (s : BotState) (now id : Nat) (d : UnresolvedBet) :
    (add_unresolved_bet s now id d).last_resolution_api_call = s.last_resolution_api_call := rfl

@[simp] theorem add_unresolved_bet_trace (s : BotState) (now id : Nat) (d : UnresolvedBet) :
    (add_unresolved_bet s now id d).trace =
      s.trace ++ [Ev.addUnresolved id { d with placed_at := now }] := rfl

@[simp] theorem move_to_resolved_tracked (s : BotState) (now id : Nat) (b : UnresolvedBet)
    (oc : String) : (move_to_resolved s now id b oc).tracked_matches = s.tracked_matches := rfl

@[simp] theorem move_to_resolved_unresolved (s : BotState) (now id : Nat) (b : UnresolvedBet)
    (oc : String) :
    (move_to_resolved s now id b oc).unresolved_bets = dict_pop id s.unresolved_bets := rfl

@[simp] theorem move_to_resolved_resolved (s : BotState) (now id : Nat) (b : UnresolvedBet)
    (oc : String) :
    (move_to_resolved s now id b oc).resolved_bets =
      dict_set id { bet := b, outcome := oc, resolved_at := now, resolution_timestamp := now }
        s.resolved_bets := rfl

@[simp] theorem move_to_resolved_last_call (s : BotState) (now id : Nat) (b : UnresolvedBet)
    (oc : String) :
    (move_to_resolved s now id b oc).last_resolution_api_call =
      s.last_resolution_api_call := rfl

@[simp] theorem move_to_resolved_trace (s : BotState) (now id : Nat) (b : UnresolvedBet)
    (oc : String) :
    (move_to_resolved s now id b oc).trace = s.trace ++ [Ev.moveResolved id b oc] := rfl

@[simp] theorem delete_tracked_match_tracked (s : BotState) (id : Nat) :
    (delete_tracked_match s id).tracked_matches = dict_pop id s.tracked_matches := rfl

@[simp] theorem delete_tracked_match_unresolved (s : BotState) (id : Nat) :
    (delete_tracked_match s id).unresolved_bets = s.unresolved_bets := rfl

@[simp] theorem delete_tracked_match_resolved (s : BotState) (id : Nat) :
    (delete_tracked_match s id).resolved_bets = s.resolved_bets := rfl

@[simp] theorem delete_tracked_match_last_call (s : BotState) (id : Nat) :
    (delete_tracked_match s id).last_resolution_api_call = s.last_resolution_api_call := rfl

@[simp] theorem delete_tracked_match_trace (s : BotState) (id : Nat) :
    (delete_tracked_match s id).trace = s.trace ++ [Ev.deleteTracked id] := rfl

@[simp] theorem send_telegram_fst (d : Notification → Bool) (s : BotState) (n : Notification) :
    (send_telegram d s n).1 = { s with trace := s.trace ++ [Ev.notifyAttempt n] } := rfl

@[simp] theorem send_telegram_snd (d : Notification → Bool) (s : BotState) (n : Notification) :
    (send_telegram d s n).2 = d n := rfl

@[simp] theorem update_last_api_call_tracked (s : BotState) (now : Nat) :
    (update_last_api_call s now).tracked_matches = s.tracked_matches := rfl

@[simp] theorem update_last_api_call_unresolved (s : BotState) (now : Nat) :
    (update_last_api_call s now).unresolved_bets = s.unresolved_bets := rfl

@[simp] theorem update_last_api_call_resolved (s : BotState) (now : Nat) :
    (update_last_api_call s now).resolved_bets = s.resolved_bets := rfl

@[simp] theorem update_last_api_call_trace (s : BotState) (now : Nat) :
    (update_last_api_call s now).trace = s.trace ++ [Ev.setLastCall now] := rfl

/-! ## Characterization of the evaluator branches -/

theorem canonical_status_mem (sd : String) :
    canonical_status sd ∈ ["1H", "2H", "HT", "FT", "LIVE", "ET", "P", "N/A"] := by
  simp only [canonical_status]
  split_ifs with h1 h2 h3 h4 h5
  · simp
  · simp
  · simp [STATUS_HALFTIME]
  · simp
  · simp [STATUS_LIVE] at h5
    rcases h5 with h | h | h | h | h <;> simp [h]
  · simp

theorem process_ignored (d : Notification → Bool) (now : Nat) (s : BotState)
    (m : MatchSnapshot)
    (h1 : canonical_status m.status_description ∉ STATUS_LIVE)
    (h2 : canonical_status m.status_description ≠ STATUS_HALFTIME) :
    process_live_match d now s m = s := by
  simp only [process_live_match]
  rw [if_pos ⟨h1, h2⟩]

theorem process_minute_none (d : Notification → Bool) (now : Nat) (s : BotState)
    (m : MatchSnapshot)
    (h1 : canonical_status m.status_description ∈ STATUS_LIVE)
    (hm : m.total_elapsed_minutes = none) :
    process_live_match d now s m = s := by
  have h2 : canonical_status m.status_description ∉ [STATUS_HALFTIME] := by
    intro hh
    rw [List.mem_singleton] at hh
    rw [hh] at h1
    simp [STATUS_LIVE, STATUS_HALFTIME] at h1
  simp only [process_live_match]
  rw [if_neg (not_and_of_not_left _ (not_not_intro h1)), if_pos ⟨hm, h2⟩]

theorem process_live_not_1H (d : Notification → Bool) (now : Nat) (s : BotState)
    (m : MatchSnapshot)
    (h1 : canonical_status m.status_description ∈ STATUS_LIVE)
    (hne : canonical_status m.status_description ≠ "1H") :
    process_live_match d now s m = s := by
  have h2 : canonical_status m.status_description ≠ STATUS_HALFTIME := by
    intro hh; rw [hh] at h1
    simp [STATUS_LIVE, STATUS_HALFTIME] at h1
  have hfin : canonical_status m.status_description ∉ STATUS_FINISHED := by
    simp [STATUS_LIVE] at h1
    rcases h1 with h | h | h | h | h <;> (rw [h]; simp [STATUS_FINISHED])
  simp only [process_live_match]
  rw [if_neg (not_and_of_not_left _ (not_not_intro h1))]
  by_cases hm : m.total_elapsed_minutes = none
  · rw [if_pos ⟨hm, by simpa using h2⟩]
  · rw [if_neg (not_and_of_not_left _ hm)]
    rw [if_neg (not_and_of_not_left _ hfin),
      if_neg (not_and_of_not_left _ hne), if_neg (not_and_of_not_left _ h2)]

theorem process_1H_no36 (d : Notification → Bool) (now : Nat) (s : BotState)
    (m : MatchSnapshot)
    (h1 : canonical_status m.status_description = "1H")
    (hm : ¬(m.total_elapsed_minutes = some 36 ∨ m.total_elapsed_minutes = some 37)) :
    process_live_match d now s m = s := by
  have hlive : ¬(canonical_status m.status_description ∉ STATUS_LIVE) :=
    not_not_intro (by rw [h1]; decide)
  have hht : canonical_status m.status_description ≠ STATUS_HALFTIME := by
    rw [h1]; decide
  have hfin : canonical_status m.status_description ∉ STATUS_FINISHED := by
    rw [h1]; decide
  simp only [process_live_match]
  rw [if_neg (not_and_of_not_left _ hlive)]
  by_cases hmn : m.total_elapsed_minutes = none
  · rw [if_pos ⟨hmn, by simpa using hht⟩]
  · rw [if_neg (not_and_of_not_left _ hmn)]
    rw [if_neg (not_and_of_not_left _ hfin),
      if_neg (not_and_of_not_right _ (not_and_of_not_left _ hm)),
      if_neg (not_and_of_not_left _ hht)]

theorem process_1H_placed (d : Notification → Bool) (now : Nat) (s : BotState)
    (m : MatchSnapshot)
    (h1 : canonical_status m.status_description = "1H")
    (hp : ((get_tracked_match s m.id).getD initial_tracked_state).bet_placed_36 = true) :
    process_live_match d now s m = s := by
  have hlive : ¬(canonical_status m.status_description ∉ STATUS_LIVE) :=
    not_not_intro (by rw [h1]; decide)
  have hht : canonical_status m.status_description ≠ STATUS_HALFTIME := by
    rw [h1]; decide
  have hfin : canonical_status m.status_description ∉ STATUS_FINISHED := by
    rw [h1]; decide
  have hpf : ¬(((get_tracked_match s m.id).getD initial_tracked_state).bet_placed_36 = false) := by
    rw [hp]; decide
  simp only [process_live_match]
  rw [if_neg (not_and_of_not_left _ hlive)]
  by_cases hmn : m.total_elapsed_minutes = none
  · rw [if_pos ⟨hmn, by simpa using hht⟩]
  · rw [if_neg (not_and_of_not_left _ hmn)]
    rw [if_neg (not_and_of_not_left _ hfin),
      if_neg (not_and_of_not_right _ (not_and_of_not_right _ hpf)),
      if_neg (not_and_of_not_left _ hht)]

theorem process_1H_place_eq (d : Notification → Bool) (now : Nat) (s : BotState)
    (m : MatchSnapshot)
    (h1 : canonical_status m.status_description = "1H")
    (hm : m.total_elapsed_minutes = some 36 ∨ m.total_elapsed_minutes = some 37)
    (hp : ((get_tracked_match s m.id).getD initial_tracked_state).bet_placed_36 = false) :
    process_live_match d now s m =
      place_regular_bet d now s ((get_tracked_match s m.id).getD initial_tracked_state)
        m.id (match_score m) (match_info_of m) := by
  have hmn : ¬(m.total_elapsed_minutes = none) := by
    rcases hm with h | h <;> (rw [h]; exact Option.some_ne_none _)
  have hlive : ¬(canonical_status m.status_description ∉ STATUS_LIVE) :=
    not_not_intro (by rw [h1]; decide)
  have hfin : canonical_status m.status_description ∉ STATUS_FINISHED := by
    rw [h1]; decide
  simp only [process_live_match]
  rw [if_neg (not_and_of_not_left _ hlive)]
  rw [if_neg (not_and_of_not_left _ hmn)]
  rw [if_neg (not_and_of_not_left _ hfin), if_pos ⟨h1, hm, hp⟩]

theorem process_ht_no_bet (d : Notification → Bool) (now : Nat) (s : BotState)
    (m : MatchSnapshot)
    (h1 : canonical_status m.status_description = STATUS_HALFTIME)
    (hu : is_bet_unresolved s m.id = false) :
    process_live_match d now s m = s := by
  have hg1 : ¬(canonical_status m.status_description ≠ STATUS_HALFTIME) :=
    not_not_intro h1
  have hg2 : ¬(canonical_status m.status_description ∉ [STATUS_HALFTIME]) :=
    not_not_intro (by rw [h1]; exact List.mem_singleton.mpr rfl)
  have hne1 : canonical_status m.status_description ≠ "1H" := by
    rw [h1]; decide
  have hfin : canonical_status m.status_description ∉ STATUS_FINISHED := by
    rw [h1]; decide
  have hun : ¬(is_bet_unresolved s m.id = true) := by
    rw [hu]; decide
  simp only [process_live_match]
  rw [if_neg (not_and_of_not_right _ hg1)]
  rw [if_neg (not_and_of_not_right _ hg2)]
  rw [if_neg (not_and_of_not_left _ hfin),
    if_neg (not_and_of_not_left _ hne1),
    if_neg (not_and_of_not_right _ hun)]

theorem process_ht_eq (d : Notification → Bool) (now : Nat) (s : BotState)
    (m : MatchSnapshot)
    (h1 : canonical_status m.status_description = STATUS_HALFTIME)
    (hu : is_bet_unresolved s m.id = true) :
    process_live_match d now s m =
      check_ht_result d now s m.id (match_score m) (match_info_of m) := by
  have hg1 : ¬(canonical_status m.status_description ≠ STATUS_HALFTIME) :=
    not_not_intro h1
  have hg2 : ¬(canonical_status m.status_description ∉ [STATUS_HALFTIME]) :=
    not_not_intro (by rw [h1]; exact List.mem_singleton.mpr rfl)
  have hne1 : canonical_status m.status_description ≠ "1H" := by
    rw [h1]; decide
  have hfin : canonical_status m.status_description ∉ STATUS_FINISHED := by
    rw [h1]; decide
  simp only [process_live_match]
  rw [if_neg (not_and_of_not_right _ hg1)]
  rw [if_neg (not_and_of_not_right _ hg2)]
  rw [if_neg (not_and_of_not_left _ hfin),
    if_neg (not_and_of_not_left _ hne1),
    if_pos ⟨h1, hu⟩]

/-! ## Lemmas about place_regular_bet -/

theorem place_tracked_flag (d : Notification → Bool) (now : Nat) (s : BotState)
    (st : TrackedState) (fid : Nat) (score : String) (mi : MatchInfo)
    (h : st.bet_placed_36 = false) :
    (get_tracked_match (place_regular_bet d now s st fid score mi) fid).map
      TrackedState.bet_placed_36 = some true := by
  simp only [place_regular_bet]
  by_cases h1 : is_bet_unresolved s fid = true
  · rw [if_pos h1, if_pos h]
    simp [get_tracked_match, dict_get_set_self]
  · rw [if_neg h1]
    by_cases h3 : score ∈ ["1-1", "2-2", "3-3"]
    · rw [if_pos h3]
      simp [get_tracked_match, dict_get_set_self]
    · rw [if_neg h3]
      simp [get_tracked_match, dict_get_set_self]

theorem place_unresolved_unchanged (d : Notification → Bool) (now : Nat) (s : BotState)
    (st : TrackedState) (fid : Nat) (score : String) (mi : MatchInfo)
    (hsc : score ∉ ["1-1", "2-2", "3-3"]) :
    (place_regular_bet d now s st fid score mi).unresolved_bets = s.unresolved_bets := by
  simp only [place_regular_bet]
  by_cases h1 : is_bet_unresolved s fid = true
  · rw [if_pos h1]
    by_cases h2 : st.bet_placed_36 = false
    · rw [if_pos h2]; simp
    · rw [if_neg h2]
  · rw [if_neg h1, if_neg hsc]
    simp

theorem place_notify_unchanged (d : Notification → Bool) (now : Nat) (s : BotState)
    (st : TrackedState) (fid : Nat) (score : String) (mi : MatchInfo)
    (hsc : score ∉ ["1-1", "2-2", "3-3"]) :
    (place_regular_bet d now s st fid score mi).trace.filter is_notify_ev =
      s.trace.filter is_notify_ev := by
  simp only [place_regular_bet]
  by_cases h1 : is_bet_unresolved s fid = true
  · rw [if_pos h1]
    by_cases h2 : st.bet_placed_36 = false
    · rw [if_pos h2]; simp [is_notify_ev]
    · rw [if_neg h2]
  · rw [if_neg h1, if_neg hsc]
    simp [is_notify_ev]

theorem place_resolved_unchanged (d : Notification → Bool) (now : Nat) (s : BotState)
    (st : TrackedState) (fid : Nat) (score : String) (mi : MatchInfo) :
    (place_regular_bet d now s st fid score mi).resolved_bets = s.resolved_bets := by
  simp only [place_regular_bet]
  by_cases h1 : is_bet_unresolved s fid = true
  · rw [if_pos h1]
    by_cases h2 : st.bet_placed_36 = false
    · rw [if_pos h2]; simp
    · rw [if_neg h2]
  · rw [if_neg h1]
    by_cases h3 : score ∈ ["1-1", "2-2", "3-3"]
    · rw [if_pos h3]; simp
    · rw [if_neg h3]; simp

theorem place_skip_unresolved_unchanged (d : Notification → Bool) (now : Nat) (s : BotState)
    (st : TrackedState) (fid : Nat) (score : String) (mi : MatchInfo)
    (h1 : is_bet_unresolved s fid = true) :
    (place_regular_bet d now s st fid score mi).unresolved_bets = s.unresolved_bets := by
  simp only [place_regular_bet]
  rw [if_pos h1]
  by_cases h2 : st.bet_placed_36 = false
  · rw [if_pos h2]; simp
  · rw [if_neg h2]

/-! ## Lemmas about check_ht_result -/

theorem check_ht_regular_spec (d : Notification → Bool) (now : Nat) (s : BotState)
    (fid : Nat) (score : String) (mi : MatchInfo) (u : UnresolvedBet)
    (h : dict_get fid s.unresolved_bets = some u)
    (hb : u.bet_type = BET_TYPE_REGULAR) :
    check_ht_result d now s fid score mi =
      { tracked_matches := dict_pop fid s.tracked_matches,
        unresolved_bets := dict_pop fid s.unresolved_bets,
        resolved_bets := dict_set fid
          { bet := u, outcome := if score = u.score_36 then "win" else "loss",
            resolved_at := now, resolution_timestamp := now } s.resolved_bets,
        last_resolution_api_call := s.last_resolution_api_call,
        trace := s.trace ++
          [Ev.moveResolved fid u (if score = u.score_36 then "win" else "loss"),
           Ev.notifyAttempt (Notification.htResult mi.match_name u.country u.league score
             u.score_36 (if score = u.score_36 then "win" else "loss")),
           Ev.deleteTracked fid] } := by
  simp only [check_ht_result, get_unresolved_bet_data, h]
  simp [hb, is_bet_unresolved, dict_get_pop_self, move_to_resolved, send_telegram,
    delete_tracked_match, List.append_assoc]

theorem check_ht_nonregular_eq (d : Notification → Bool) (now : Nat) (s : BotState)
    (fid : Nat) (score : String) (mi : MatchInfo) (u : UnresolvedBet)
    (h : dict_get fid s.unresolved_bets = some u)
    (hb : u.bet_type ≠ BET_TYPE_REGULAR) :
    check_ht_result d now s fid score mi = s := by
  simp only [check_ht_result, get_unresolved_bet_data, h]
  rw [if_neg hb]
  have ht : is_bet_unresolved s fid = true := by simp [is_bet_unresolved, h]
  rw [ht]
  simp

/-! ## Lemmas about the stale reconciler -/

theorem resolve_stale_bet_spec (d : Notification → Bool)
    (fetch : Nat → Option MatchSnapshot) (now : Nat)
    (acc : BotState × Bool) (entry : Nat × UnresolvedBet) :
    resolve_stale_bet d fetch now acc entry =
      ({ acc.1 with trace := acc.1.trace ++ [Ev.fetchFinal entry.2.sofascored_id] },
       acc.2 || (fetch entry.2.sofascored_id).isSome) := by
  simp only [resolve_stale_bet]
  cases hf : fetch entry.2.sofascored_id with
  | none => simp
  | some md => simp [ite_self]

theorem foldl_resolve_spec (d : Notification → Bool) (fetch : Nat → Option MatchSnapshot)
    (now : Nat) (l : List (Nat × UnresolvedBet)) :
    ∀ acc : BotState × Bool,
      l.foldl (resolve_stale_bet d fetch now) acc =
        ({ acc.1 with trace := (acc.1.trace ++
            l.map (fun e => Ev.fetchFinal e.2.sofascored_id)) },
         acc.2 || l.any (fun e => (fetch e.2.sofascored_id).isSome)) := by
  induction l with
  | nil => intro acc; simp
  | cons e rest ih =>
    intro acc
    rw [List.foldl_cons, resolve_stale_bet_spec, ih]
    simp [List.append_assoc, Bool.or_assoc]

/-! ## Miscellaneous helpers -/

theorem getD_flag_true (o : Option TrackedState)
    (h : o.map TrackedState.bet_placed_36 = some true) :
    (o.getD initial_tracked_state).bet_placed_36 = true := by
  cases o <;> simp_all

theorem list_any_map {α β : Type} (l : List α) (f : α → β) (p : β → Bool) :
    (l.map f).any p = l.any (fun x => p (f x)) := by
  induction l <;> simp_all

theorem list_any_false {α : Type} (l : List α) :
    l.any (fun _ => false) = false := by
  induction l <;> simp_all

theorem stale_excludes_regular (s : BotState) (now wait : Nat) :
    ∀ p ∈ get_stale_unresolved_bets s now wait, p.2.bet_type ≠ BET_TYPE_REGULAR := by
  intro p hp
  simp only [get_stale_unresolved_bets, List.mem_filter, Bool.and_eq_true,
    Bool.not_eq_true', decide_eq_false_iff_not, List.mem_singleton] at hp
  exact hp.2.1

theorem stale_gate_skip (d : Notification → Bool) (fetch : Nat → Option MatchSnapshot)
    (now : Nat) (s : BotState) (t : Nat)
    (hl : get_last_api_call s = some t)
    (hgate : (now : Int) - (t : Int) < (FIXTURE_API_INTERVAL : Int)) :
    check_and_resolve_stale_bets d fetch now s = s := by
  simp only [check_and_resolve_stale_bets, hl]
  by_cases hst : get_stale_unresolved_bets s now BET_RESOLUTION_WAIT_MINUTES = []
  · rw [if_pos hst]
  · rw [if_neg hst, if_pos hgate]

theorem stale_trace_no_notify (d : Notification → Bool) (fetch : Nat → Option MatchSnapshot)
    (now : Nat) (s : BotState) :
    (check_and_resolve_stale_bets d fetch now s).trace.any is_notify_ev =
      s.trace.any is_notify_ev := by
  simp only [check_and_resolve_stale_bets]
  by_cases hst : get_stale_unresolved_bets s now BET_RESOLUTION_WAIT_MINUTES = []
  · rw [if_pos hst]
  · rw [if_neg hst]
    cases hlast : get_last_api_call s with
    | none =>
      simp only [hlast]
      by_cases hg : ((FIXTURE_API_INTERVAL : Int) + 1) < (FIXTURE_API_INTERVAL : Int)
      · rw [if_pos hg]
      · rw [if_neg hg, foldl_resolve_spec]
        split_ifs <;>
          simp [List.any_append, list_any_map, is_notify_ev, list_any_false]
    | some t =>
      simp only [hlast]
      by_cases hg : ((now : Int) - (t : Int)) < (FIXTURE_API_INTERVAL : Int)
      · rw [if_pos hg]
      · rw [if_neg hg, foldl_resolve_spec]
        split_ifs <;>
          simp [List.any_append, list_any_map, is_notify_ev, list_any_false]

theorem stale_no_last_call_fetches (d : Notification → Bool)
    (fetch : Nat → Option MatchSnapshot) (now : Nat) (s : BotState)
    (hl : get_last_api_call s = none)
    (hst : get_stale_unresolved_bets s now BET_RESOLUTION_WAIT_MINUTES ≠ []) :
    (check_and_resolve_stale_bets d fetch now s).trace.any is_fetch_ev = true := by
  simp only [check_and_resolve_stale_bets, hl]
  rw [if_neg hst]
  have hg : ¬(((FIXTURE_API_INTERVAL : Int) + 1) < (FIXTURE_API_INTERVAL : Int)) := by
    omega
  rw [if_neg hg, foldl_resolve_spec]
  have hany : ((get_stale_unresolved_bets s now BET_RESOLUTION_WAIT_MINUTES).map
      (fun e => Ev.fetchFinal e.2.sofascored_id)).any is_fetch_ev = true := by
    obtain ⟨e, he⟩ := List.exists_mem_of_ne_nil _ hst
    exact List.any_eq_true.mpr
      ⟨Ev.fetchFinal e.2.sofascored_id, List.mem_map_of_mem _ he, rfl⟩
  split_ifs <;> simp [List.any_append, hany]

/-! ## Claim C2 -/

/-- Claim C2: for a fixture with an unresolved regular bet, evaluating a
snapshot whose canonical status is HT moves the bet to the Resolved
table with outcome win exactly when the current score string equals the
placed score and loss otherwise, and removes it from the Unresolved
table. -/
theorem C2_ht_resolution (d : Notification → Bool) (now : Nat) (s : BotState)
    (m : MatchSnapshot) (u : UnresolvedBet)
    (hHT : canonical_status m.status_description = STATUS_HALFTIME)
    (hu : dict_get m.id s.unresolved_bets = some u)
    (hb : u.bet_type = BET_TYPE_REGULAR) :
    dict_get m.id (process_live_match d now s m).resolved_bets =
      some { bet := u, outcome := if match_score m = u.score_36 then "win" else "loss",
             resolved_at := now, resolution_timestamp := now } ∧
    dict_get m.id (process_live_match d now s m).unresolved_bets = none := by
  have hub : is_bet_unresolved s m.id = true := by simp [is_bet_unresolved, hu]
  rw [process_ht_eq d now s m hHT hub,
    check_ht_regular_spec d now s m.id (match_score m) (match_info_of m) u hu hb]
  exact ⟨dict_get_set_self _ _ _, dict_get_pop_self _ _⟩

/-! ## Claim C10 -/

/-- Claim C10: when an unresolved regular bet is resolved at halftime,
the same evaluation also deletes the fixture's active Tracking Record,
immediately after the move (the only store mutations are the move and
then the delete); afterwards the fixture is absent from the active and
unresolved tables and present in the resolved table. -/
theorem C10_ht_cleanup (d : Notification → Bool) (now : Nat) (s : BotState)
    (m : MatchSnapshot) (u : UnresolvedBet)
    (hs : s.trace = [])
    (hHT : canonical_status m.status_description = STATUS_HALFTIME)
    (hu : dict_get m.id s.unresolved_bets = some u)
    (hb : u.bet_type = BET_TYPE_REGULAR) :
    get_tracked_match (process_live_match d now s m) m.id = none ∧
    dict_get m.id (process_live_match d now s m).unresolved_bets = none ∧
    (dict_get m.id (process_live_match d now s m).resolved_bets).isSome = true ∧
    (process_live_match d now s m).trace.filter is_store_mut_ev =
      [Ev.moveResolved m.id u (if match_score m = u.score_36 then "win" else "loss"),
       Ev.deleteTracked m.id] := by
  have hub : is_bet_unresolved s m.id = true := by simp [is_bet_unresolved, hu]
  rw [process_ht_eq d now s m hHT hub,
    check_ht_regular_spec d now s m.id (match_score m) (match_info_of m) u hu hb]
  refine ⟨dict_get_pop_self _ _, dict_get_pop_self _ _, ?_, ?_⟩
  · simp [dict_get_set_self]
  · simp [hs, is_store_mut_ev]

/-! ## Claim C7 -/

/-- Claim C7: evaluating the same unchanged snapshot against the state
produced by a first evaluation is the identity: no second placement
notification, no second or overwritten Unresolved Bet Record, no
mutation of any table and no trace event at all.  Placement is guarded
by the 36_bet_placed flag, which every placement branch raises, and by
the is_bet_unresolved pre-check. -/
theorem C7_idempotent (d : Notification → Bool) (now1 now2 : Nat) (s : BotState)
    (m : MatchSnapshot) :
    process_live_match d now2 (process_live_match d now1 s m) m =
      process_live_match d now1 s m := by
  have hmem := canonical_status_mem m.status_description
  simp only [List.mem_cons, List.mem_singleton, List.not_mem_nil, or_false] at hmem
  rcases hmem with h | h | h | h | h | h | h | h
  · by_cases hm : m.total_elapsed_minutes = some 36 ∨ m.total_elapsed_minutes = some 37
    · by_cases hp : ((get_tracked_match s m.id).getD initial_tracked_state).bet_placed_36 = true
      · rw [process_1H_placed d now1 s m h hp]
        exact process_1H_placed d now2 s m h hp
      · have hp' : ((get_tracked_match s m.id).getD initial_tracked_state).bet_placed_36
            = false := by simpa using hp
        rw [process_1H_place_eq d now1 s m h hm hp']
        exact process_1H_placed d now2 _ m h
          (getD_flag_true _
            (place_tracked_flag d now1 s _ m.id (match_score m) (match_info_of m) hp'))
    · rw [process_1H_no36 d now1 s m h hm]
      exact process_1H_no36 d now2 s m h hm
  · rw [process_live_not_1H d now1 s m (by rw [h]; decide) (by rw [h]; decide)]
    exact process_live_not_1H d now2 s m (by rw [h]; decide) (by rw [h]; decide)
  · have hh : canonical_status m.status_description = STATUS_HALFTIME := by rw [h]; rfl
    by_cases hu : is_bet_unresolved s m.id = true
    · obtain ⟨u, hget⟩ : ∃ u, dict_get m.id s.unresolved_bets = some u := by
        simpa [is_bet_unresolved, Option.isSome_iff_exists] using hu
      by_cases hb : u.bet_type = BET_TYPE_REGULAR
      · rw [process_ht_eq d now1 s m hh hu,
          check_ht_regular_spec d now1 s m.id (match_score m) (match_info_of m) u hget hb]
        exact process_ht_no_bet d now2 _ m hh
          (by simp [is_bet_unresolved, dict_get_pop_self])
      · rw [process_ht_eq d now1 s m hh hu,
          check_ht_nonregular_eq d now1 s m.id (match_score m) (match_info_of m) u hget hb]
        rw [process_ht_eq d now2 s m hh hu,
          check_ht_nonregular_eq d now2 s m.id (match_score m) (match_info_of m) u hget hb]
    · have hu' : is_bet_unresolved s m.id = false := by simpa using hu
      rw [process_ht_no_bet d now1 s m hh hu']
      exact process_ht_no_bet d now2 s m hh hu'
  · rw [process_ignored d now1 s m (by rw [h]; decide) (by rw [h]; decide)]
    exact process_ignored d now2 s m (by rw [h]; decide) (by rw [h]; decide)
  · rw [process_live_not_1H d now1 s m (by rw [h]; decide) (by rw [h]; decide)]
    exact process_live_not_1H d now2 s m (by rw [h]; decide) (by rw [h]; decide)
  · rw [process_live_not_1H d now1 s m (by rw [h]; decide) (by rw [h]; decide)]
    exact process_live_not_1H d now2 s m (by rw [h]; decide) (by rw [h]; decide)
  · rw [process_live_not_1H d now1 s m (by rw [h]; decide) (by rw [h]; decide)]
    exact process_live_not_1H d now2 s m (by rw [h]; decide) (by rw [h]; decide)
  · rw [process_ignored d now1 s m (by rw [h]; decide) (by rw [h]; decide)]
    exact process_ignored d now2 s m (by rw [h]; decide) (by rw [h]; decide)

/-! ## Claim C1 -/

/-- Claim C1: an Unresolved Bet Record is created for a fixture only if
the record's prior 36_bet_placed flag was false, the canonical status
was 1H, the minute was 36 or 37 and the score string was one of 1-1,
2-2, 3-3; and when status and minute match but the score does not
qualify, the flag is raised while no unresolved bet is created and no
notification is attempted. -/
theorem C1_placement_guard (d : Notification → Bool) (now : Nat) (s : BotState)
    (m : MatchSnapshot) :
    (dict_get m.id s.unresolved_bets = none →
      dict_get m.id (process_live_match d now s m).unresolved_bets ≠ none →
      ((get_tracked_match s m.id).getD initial_tracked_state).bet_placed_36 = false ∧
        canonical_status m.status_description = "1H" ∧
        (m.total_elapsed_minutes = some 36 ∨ m.total_elapsed_minutes = some 37) ∧
        match_score m ∈ ["1-1", "2-2", "3-3"]) ∧
    (canonical_status m.status_description = "1H" →
      (m.total_elapsed_minutes = some 36 ∨ m.total_elapsed_minutes = some 37) →
      ((get_tracked_match s m.id).getD initial_tracked_state).bet_placed_36 = false →
      match_score m ∉ ["1-1", "2-2", "3-3"] →
      (get_tracked_match (process_live_match d now s m) m.id).map TrackedState.bet_placed_36
          = some true ∧
        (process_live_match d now s m).unresolved_bets = s.unresolved_bets ∧
        (process_live_match d now s m).trace.filter is_notify_ev =
          s.trace.filter is_notify_ev) := by
  constructor
  · intro hnone hne
    have hmem := canonical_status_mem m.status_description
    simp only [List.mem_cons, List.mem_singleton, List.not_mem_nil, or_false] at hmem
    rcases hmem with h | h | h | h | h | h | h | h
    · by_cases hm : m.total_elapsed_minutes = some 36 ∨ m.total_elapsed_minutes = some 37
      · by_cases hp : ((get_tracked_match s m.id).getD initial_tracked_state).bet_placed_36
            = true
        · rw [process_1H_placed d now s m h hp] at hne
          exact absurd hnone hne
        · have hp' : ((get_tracked_match s m.id).getD initial_tracked_state).bet_placed_36
              = false := by simpa using hp
          by_cases hsc : match_score m ∈ ["1-1", "2-2", "3-3"]
          · exact ⟨hp', h, hm, hsc⟩
          · rw [process_1H_place_eq d now s m h hm hp',
              place_unresolved_unchanged d now s _ m.id (match_score m)
                (match_info_of m) hsc] at hne
            exact absurd hnone hne
      · rw [process_1H_no36 d now s m h hm] at hne
        exact absurd hnone hne
    · rw [process_live_not_1H d now s m (by rw [h]; decide) (by rw [h]; decide)] at hne
      exact absurd hnone hne
    · have hu : is_bet_unresolved s m.id = false := by simp [is_bet_unresolved, hnone]
      rw [process_ht_no_bet d now s m (by rw [h]; rfl) hu] at hne
      exact absurd hnone hne
    · rw [process_ignored d now s m (by rw [h]; decide) (by rw [h]; decide)] at hne
      exact absurd hnone hne
    · rw [process_live_not_1H d now s m (by rw [h]; decide) (by rw [h]; decide)] at hne
      exact absurd hnone hne
    · rw [process_live_not_1H d now s m (by rw [h]; decide) (by rw [h]; decide)] at hne
      exact absurd hnone hne
    · rw [process_live_not_1H d now s m (by rw [h]; decide) (by rw [h]; decide)] at hne
      exact absurd hnone hne
    · rw [process_ignored d now s m (by rw [h]; decide) (by rw [h]; decide)] at hne
      exact absurd hnone hne
  · intro h1 hm hp hsc
    rw [process_1H_place_eq d now s m h1 hm hp]
    exact ⟨place_tracked_flag d now s _ m.id (match_score m) (match_info_of m) hp,
      place_unresolved_unchanged d now s _ m.id (match_score m) (match_info_of m) hsc,
      place_notify_unchanged d now s _ m.id (match_score m) (match_info_of m) hsc⟩

/-- Witness for C1: fixture 100 at minute 36 of the first half; with
score 2-2 a new unresolved record forces the four guard facts, and
with score 1-0 only the flag is raised, silently. -/
theorem C1_placement_guard_witness :
    (((get_tracked_match empty_state 100).getD initial_tracked_state).bet_placed_36 = false ∧
      canonical_status snap_1H_q.status_description = "1H" ∧
      (snap_1H_q.total_elapsed_minutes = some 36 ∨
        snap_1H_q.total_elapsed_minutes = some 37) ∧
      match_score snap_1H_q ∈ ["1-1", "2-2", "3-3"]) ∧
    ((get_tracked_match (process_live_match (fun _ => true) 0 empty_state snap_1H_nq)
        100).map TrackedState.bet_placed_36 = some true ∧
      (process_live_match (fun _ => true) 0 empty_state snap_1H_nq).unresolved_bets =
        empty_state.unresolved_bets ∧
      (process_live_match (fun _ => true) 0 empty_state snap_1H_nq).trace.filter
          is_notify_ev = empty_state.trace.filter is_notify_ev) := by
  constructor
  · exact (C1_placement_guard (fun _ => true) 0 empty_state snap_1H_q).1 rfl (by decide)
  · exact (C1_placement_guard (fun _ => true) 0 empty_state snap_1H_nq).2 (by decide)
      (Or.inl rfl) rfl (by decide)

/-- Witness for C2: placed score 2-2; halftime score 2-2 resolves as a
win, halftime score 2-1 resolves as a loss, and in both cases the bet
moves to the Resolved table. -/
theorem C2_ht_resolution_witness :
    (dict_get 1 (process_live_match (fun _ => true) 50 demo_state ht_snap_win).resolved_bets
        = some { bet := demo_bet, outcome := "win", resolved_at := 50,
                 resolution_timestamp := 50 } ∧
      dict_get 1
        (process_live_match (fun _ => true) 50 demo_state ht_snap_win).unresolved_bets
        = none) ∧
    (dict_get 1 (process_live_match (fun _ => true) 50 demo_state ht_snap_loss).resolved_bets
        = some { bet := demo_bet, outcome := "loss", resolved_at := 50,
                 resolution_timestamp := 50 } ∧
      dict_get 1
        (process_live_match (fun _ => true) 50 demo_state ht_snap_loss).unresolved_bets
        = none) := by
  constructor
  · have h := C2_ht_resolution (fun _ => true) 50 demo_state ht_snap_win demo_bet
      (by decide) rfl rfl
    rw [show (if match_score ht_snap_win = demo_bet.score_36 then "win" else "loss") = "win"
      from rfl] at h
    exact h
  · have h := C2_ht_resolution (fun _ => true) 50 demo_state ht_snap_loss demo_bet
      (by decide) rfl rfl
    rw [show (if match_score ht_snap_loss = demo_bet.score_36 then "win" else "loss")
      = "loss" from rfl] at h
    exact h

/-- Witness for C10: resolving the 2-2 bet of fixture 1 at halftime
leaves the fixture absent from the active and unresolved tables,
present in the resolved table, and the only store mutations are the
move followed by the delete. -/
theorem C10_ht_cleanup_witness :
    get_tracked_match (process_live_match (fun _ => true) 50 demo_state ht_snap_win) 1
      = none ∧
    dict_get 1 (process_live_match (fun _ => true) 50 demo_state ht_snap_win).unresolved_bets
      = none ∧
    (dict_get 1
      (process_live_match (fun _ => true) 50 demo_state ht_snap_win).resolved_bets).isSome
      = true ∧
    (process_live_match (fun _ => true) 50 demo_state ht_snap_win).trace.filter
        is_store_mut_ev =
      [Ev.moveResolved 1 demo_bet "win", Ev.deleteTracked 1] := by
  have h := C10_ht_cleanup (fun _ => true) 50 demo_state ht_snap_win demo_bet rfl
    (by decide) rfl rfl
  rw [show (if match_score ht_snap_win = demo_bet.score_36 then "win" else "loss") = "win"
    from rfl] at h
  exact h

/-! ## Claim C9 -/

/-- Claim C9: a snapshot with canonical status in the live set but no
elapsed minute is ignored entirely (the state, all tables and the trace
are returned unchanged, so nothing is created, placed, resolved or
notified), while a halftime snapshot is still evaluated with the minute
absent: an open regular bet is resolved. -/
theorem C9_minute_absent (d : Notification → Bool) (now : Nat) (s : BotState)
    (m : MatchSnapshot) (u : UnresolvedBet) :
    (canonical_status m.status_description ∈ STATUS_LIVE →
      m.total_elapsed_minutes = none → process_live_match d now s m = s) ∧
    (canonical_status m.status_description = STATUS_HALFTIME →
      m.total_elapsed_minutes = none →
      dict_get m.id s.unresolved_bets = some u →
      u.bet_type = BET_TYPE_REGULAR →
      dict_get m.id (process_live_match d now s m).unresolved_bets = none ∧
        (dict_get m.id (process_live_match d now s m).resolved_bets).isSome = true) := by
  constructor
  · exact fun h1 hm => process_minute_none d now s m h1 hm
  · intro hHT _ hu hb
    have hub : is_bet_unresolved s m.id = true := by simp [is_bet_unresolved, hu]
    rw [process_ht_eq d now s m hHT hub,
      check_ht_regular_spec d now s m.id (match_score m) (match_info_of m) u hu hb]
    exact ⟨dict_get_pop_self _ _, by simp [dict_get_set_self]⟩

/-- Witness for C9: a second-half snapshot without a minute leaves the
store untouched; a halftime snapshot without a minute still resolves
the open bet of fixture 1. -/
theorem C9_minute_absent_witness :
    process_live_match (fun _ => true) 0 demo_state snap_live_nomin = demo_state ∧
    (dict_get 1
        (process_live_match (fun _ => true) 60 demo_state ht_snap_nomin).unresolved_bets
        = none ∧
      (dict_get 1
        (process_live_match (fun _ => true) 60 demo_state ht_snap_nomin).resolved_bets).isSome
        = true) := by
  constructor
  · exact (C9_minute_absent (fun _ => true) 0 demo_state snap_live_nomin demo_bet).1
      (by decide) rfl
  · exact (C9_minute_absent (fun _ => true) 60 demo_state ht_snap_nomin demo_bet).2
      (by decide) rfl rfl rfl

/-! ## Claim C3 (corrected) -/

/-- Counterexample to C3 as stated: fixture 200 carries an unresolved
regular bet placed at time 0, far older than the wait threshold at time
100000, yet get_stale_unresolved_bets returns the empty mapping - the
bet never appears in the staleness scan, because bets of bet_type
regular are excluded from it unconditionally. -/
theorem C3_counterexample :
    is_bet_unresolved stale_regular_state 200 = true ∧
    stale_regular_bet.bet_type = BET_TYPE_REGULAR ∧
    stale_regular_bet.placed_at + BET_RESOLUTION_WAIT_MINUTES * 60 < 100000 ∧
    get_stale_unresolved_bets stale_regular_state 100000 BET_RESOLUTION_WAIT_MINUTES
      = [] := by
  refine ⟨rfl, rfl, by norm_num [stale_regular_bet, BET_RESOLUTION_WAIT_MINUTES], rfl⟩

/-- Claim C3 (amended): a fixture whose regular bet is still unresolved
at full time keeps all its records - an FT snapshot leaves the store
entirely unchanged - but the unresolved bet never appears in
get_stale_unresolved_bets, no matter how old, because the scan
unconditionally excludes bets of the regular type. -/
theorem C3_ft_unresolved_kept (d : Notification → Bool) (now : Nat) (s : BotState)
    (m : MatchSnapshot)
    (hFT : canonical_status m.status_description = "FT") :
    process_live_match d now s m = s ∧
    ∀ p ∈ get_stale_unresolved_bets s now BET_RESOLUTION_WAIT_MINUTES,
      p.2.bet_type ≠ BET_TYPE_REGULAR :=
  ⟨process_ignored d now s m (by rw [hFT]; decide) (by rw [hFT]; decide),
   stale_excludes_regular s now BET_RESOLUTION_WAIT_MINUTES⟩

/-- Witness for the amended C3 at fixture 200 and its FT snapshot. -/
theorem C3_ft_unresolved_kept_witness :
    process_live_match (fun _ => true) 90 stale_regular_state ft_snap_200
      = stale_regular_state ∧
    ∀ p ∈ get_stale_unresolved_bets stale_regular_state 90 BET_RESOLUTION_WAIT_MINUTES,
      p.2.bet_type ≠ BET_TYPE_REGULAR :=
  C3_ft_unresolved_kept (fun _ => true) 90 stale_regular_state ft_snap_200 (by decide)

/-! ## Claim C4 (corrected) -/

/-- Counterexample to C4 as stated: fixture 7 has canonical status FT
and no unresolved bet (bet_status in {none, resolved}), yet evaluating
the snapshot does NOT delete its Tracking Record - the early-return
guard ignores every FT snapshot before the cleanup branch is reached. -/
theorem C4_counterexample :
    canonical_status ft_snap_7.status_description = "FT" ∧
    is_bet_unresolved ft_clean_state 7 = false ∧
    get_tracked_match (process_live_match (fun _ => true) 0 ft_clean_state ft_snap_7) 7 =
      some { bet_placed_36 := true, score_36 := none } := by
  refine ⟨by decide, rfl, by decide⟩

/-- Claim C4 (amended): a snapshot whose canonical status is FT is
ignored by the early-return guard regardless of the fixture's bet
state: evaluation returns the store unchanged, so the Tracking Record
is never deleted by an FT snapshot (the cleanup branch that tests
STATUS_FINISHED is unreachable, since evaluation only proceeds for
canonical statuses in the live set or HT, which are disjoint from
STATUS_FINISHED). -/
theorem C4_ft_snapshot_ignored (d : Notification → Bool) (now : Nat) (s : BotState)
    (m : MatchSnapshot)
    (hFT : canonical_status m.status_description = "FT") :
    process_live_match d now s m = s :=
  process_ignored d now s m (by rw [hFT]; decide) (by rw [hFT]; decide)

/-- Witness for the amended C4 at fixture 7. -/
theorem C4_ft_snapshot_ignored_witness :
    process_live_match (fun _ => true) 0 ft_clean_state ft_snap_7 = ft_clean_state :=
  C4_ft_snapshot_ignored (fun _ => true) 0 ft_clean_state ft_snap_7 (by decide)

/-! ## Claim C5 -/

/-- Claim C5: every bet-state transition completes its store mutation
before any notification is attempted, and a delivery failure never
prevents or rolls back a transition.  Formally: the full result of one
evaluation and of one reconciler run is independent of the delivery
oracle; in an evaluation no transition mutation (update, add-unresolved
or move-to-resolved) ever occurs after a notification attempt in the
event trace (the only post-notification event is the delivery-
independent tracked-record cleanup); and the reconciler attempts no
notification at all, since every branch that would gate a move on
delivery belongs to the removed bet types and outcome stays None. -/
theorem C5_transition_before_notify (d1 d2 : Notification → Bool)
    (fetch : Nat → Option MatchSnapshot) (now : Nat) (s : BotState) (m : MatchSnapshot)
    (hs : s.trace = []) :
    process_live_match d1 now s m = process_live_match d2 now s m ∧
    check_and_resolve_stale_bets d1 fetch now s =
      check_and_resolve_stale_bets d2 fetch now s ∧
    notify_then_mut (process_live_match d1 now s m).trace = false ∧
    (check_and_resolve_stale_bets d1 fetch now s).trace.any is_notify_ev = false := by
  refine ⟨rfl, rfl, ?_, ?_⟩
  · have hmem := canonical_status_mem m.status_description
    simp only [List.mem_cons, List.mem_singleton, List.not_mem_nil, or_false] at hmem
    rcases hmem with h | h | h | h | h | h | h | h
    · by_cases hm : m.total_elapsed_minutes = some 36 ∨ m.total_elapsed_minutes = some 37
      · by_cases hp : ((get_tracked_match s m.id).getD initial_tracked_state).bet_placed_36
            = true
        · rw [process_1H_placed d1 now s m h hp]
          simp [hs, notify_then_mut]
        · have hp' : ((get_tracked_match s m.id).getD initial_tracked_state).bet_placed_36
              = false := by simpa using hp
          rw [process_1H_place_eq d1 now s m h hm hp']
          simp only [place_regular_bet]
          by_cases h1 : is_bet_unresolved s m.id = true
          · rw [if_pos h1, if_pos hp']
            simp [hs, notify_then_mut, is_notify_ev]
          · rw [if_neg h1]
            by_cases h3 : match_score m ∈ ["1-1", "2-2", "3-3"]
            · rw [if_pos h3]
              simp [hs, notify_then_mut, is_notify_ev, is_transition_mut]
            · rw [if_neg h3]
              simp [hs, notify_then_mut, is_notify_ev]
      · rw [process_1H_no36 d1 now s m h hm]
        simp [hs, notify_then_mut]
    · rw [process_live_not_1H d1 now s m (by rw [h]; decide) (by rw [h]; decide)]
      simp [hs, notify_then_mut]
    · have hh : canonical_status m.status_description = STATUS_HALFTIME := by rw [h]; rfl
      by_cases hu : is_bet_unresolved s m.id = true
      · obtain ⟨u, hget⟩ : ∃ u, dict_get m.id s.unresolved_bets = some u := by
          simpa [is_bet_unresolved, Option.isSome_iff_exists] using hu
        by_cases hb : u.bet_type = BET_TYPE_REGULAR
        · rw [process_ht_eq d1 now s m hh hu,
            check_ht_regular_spec d1 now s m.id (match_score m) (match_info_of m) u hget hb]
          simp [hs, notify_then_mut, is_notify_ev, is_transition_mut]
        · rw [process_ht_eq d1 now s m hh hu,
            check_ht_nonregular_eq d1 now s m.id (match_score m) (match_info_of m) u hget hb]
          simp [hs, notify_then_mut]
      · have hu' : is_bet_unresolved s m.id = false := by simpa using hu
        rw [process_ht_no_bet d1 now s m hh hu']
        simp [hs, notify_then_mut]
    · rw [process_ignored d1 now s m (by rw [h]; decide) (by rw [h]; decide)]
      simp [hs, notify_then_mut]
    · rw [process_live_not_1H d1 now s m (by rw [h]; decide) (by rw [h]; decide)]
      simp [hs, notify_then_mut]
    · rw [process_live_not_1H d1 now s m (by rw [h]; decide) (by rw [h]; decide)]
      simp [hs, notify_then_mut]
    · rw [process_live_not_1H d1 now s m (by rw [h]; decide) (by rw [h]; decide)]
      simp [hs, notify_then_mut]
    · rw [process_ignored d1 now s m (by rw [h]; decide) (by rw [h]; decide)]
      simp [hs, notify_then_mut]
  · rw [stale_trace_no_notify, hs]
    rfl

/-- Witness for C5 at the open bet of fixture 1 and its winning
halftime snapshot, with two delivery oracles that disagree
everywhere. -/
theorem C5_transition_before_notify_witness :
    process_live_match (fun _ => true) 50 demo_state ht_snap_win =
      process_live_match (fun _ => false) 50 demo_state ht_snap_win ∧
    check_and_resolve_stale_bets (fun _ => true) (fun _ => none) 50 demo_state =
      check_and_resolve_stale_bets (fun _ => false) (fun _ => none) 50 demo_state ∧
    notify_then_mut (process_live_match (fun _ => true) 50 demo_state ht_snap_win).trace
      = false ∧
    (check_and_resolve_stale_bets (fun _ => true) (fun _ => none) 50
        demo_state).trace.any is_notify_ev = false :=
  C5_transition_before_notify (fun _ => true) (fun _ => false) (fun _ => none) 50
    demo_state ht_snap_win rfl

/-! ## Claim C6 -/

/-- Claim C6: whenever a last-reconciliation-call timestamp is stored
and less than FIXTURE_API_INTERVAL seconds old, one reconciler run is a
no-op and performs zero external final-details fetches, even with stale
bets present; a never-set timestamp does not block the run - with stale
bets present, external fetches do happen. -/
theorem C6_rate_gate (d : Notification → Bool) (fetch : Nat → Option MatchSnapshot)
    (now : Nat) (s : BotState) (t : Nat) (hs : s.trace = []) :
    (get_last_api_call s = some t →
      (now : Int) - (t : Int) < (FIXTURE_API_INTERVAL : Int) →
      check_and_resolve_stale_bets d fetch now s = s ∧
        (check_and_resolve_stale_bets d fetch now s).trace.any is_fetch_ev = false) ∧
    (get_last_api_call s = none →
      get_stale_unresolved_bets s now BET_RESOLUTION_WAIT_MINUTES ≠ [] →
      (check_and_resolve_stale_bets d fetch now s).trace.any is_fetch_ev = true) := by
  constructor
  · intro hl hg
    have he := stale_gate_skip d fetch now s t hl hg
    exact ⟨he, by rw [he, hs]; rfl⟩
  · intro hl hst
    exact stale_no_last_call_fetches d fetch now s hl hst

/-- Witness for C6: a stale non-regular bet exists in both stores; with
a call 500 seconds ago the run is a no-op with zero fetches, and with
no call on record the run fetches. -/
theorem C6_rate_gate_witness :
    (check_and_resolve_stale_bets (fun _ => true) (fun _ => none) 100000 gate_recent_state
        = gate_recent_state ∧
      (check_and_resolve_stale_bets (fun _ => true) (fun _ => none) 100000
        gate_recent_state).trace.any is_fetch_ev = false) ∧
    (check_and_resolve_stale_bets (fun _ => true) (fun _ => none) 100000
      gate_unset_state).trace.any is_fetch_ev = true := by
  constructor
  · exact (C6_rate_gate (fun _ => true) (fun _ => none) 100000 gate_recent_state 99500
      rfl).1 rfl (by decide)
  · exact (C6_rate_gate (fun _ => true) (fun _ => none) 100000 gate_unset_state 0
      rfl).2 rfl (by decide)

/-! ## Claim C8 -/

/-- Claim C8: at startup each of the four durable tables loads to the
empty table when its file is missing or unreadable; construction of the
store is a total function of the four file conditions, so it never
fails. -/
theorem C8_startup_recovery
    (tracked_file : FileState (List (Nat × TrackedState)))
    (unresolved_file : FileState (List (Nat × UnresolvedBet)))
    (resolved_file : FileState (List (Nat × ResolvedBet)))
    (config_file : FileState (Option Nat)) :
    ((tracked_file = FileState.missing ∨ tracked_file = FileState.corrupt) →
      (init_local_file_manager tracked_file unresolved_file resolved_file
        config_file).tracked_matches = []) ∧
    ((unresolved_file = FileState.missing ∨ unresolved_file = FileState.corrupt) →
      (init_local_file_manager tracked_file unresolved_file resolved_file
        config_file).unresolved_bets = []) ∧
    ((resolved_file = FileState.missing ∨ resolved_file = FileState.corrupt) →
      (init_local_file_manager tracked_file unresolved_file resolved_file
        config_file).resolved_bets = []) ∧
    ((config_file = FileState.missing ∨ config_file = FileState.corrupt) →
      (init_local_file_manager tracked_file unresolved_file resolved_file
        config_file).last_resolution_api_call = none) := by
  refine ⟨?_, ?_, ?_, ?_⟩ <;> rintro (h | h) <;> subst h <;> rfl

/-- Witness for C8: a corrupt active table, a missing unresolved table
and a corrupt config table all load as empty. -/
theorem C8_startup_recovery_witness :
    (init_local_file_manager FileState.corrupt FileState.missing
      (FileState.parsed []) FileState.corrupt).tracked_matches = [] ∧
    (init_local_file_manager FileState.corrupt FileState.missing
      (FileState.parsed []) FileState.corrupt).unresolved_bets = [] ∧
    (init_local_file_manager FileState.corrupt FileState.missing
      (FileState.parsed []) FileState.corrupt).last_resolution_api_call = none :=
  ⟨(C8_startup_recovery _ _ _ _).1 (Or.inr rfl),
   (C8_startup_recovery _ _ _ _).2.1 (Or.inl rfl),
   (C8_startup_recovery _ _ _ _).2.2.2 (Or.inr rfl)⟩

end Bot
